import Mathlib

/-!
Verification of the Quincy-style flow scheduler core (Firmament).

Shallow embedding of the code in:
  src/scheduling/quincy_scheduler.cc
  src/scheduling/flow/flow_graph_node.h
  src/scheduling/flow/dimacs_change_arc.h
  src/sim/trace-extract/google_trace_simulator.h
Pointers become `Option`, pointer maps become `Nat → Option _` functions,
fatal checks (`LOG(FATAL)`, `CHECK_NOTNULL`, null dereference) become `none`
results of `Option`-valued functions, and mutation becomes explicit state
passing.
-/

/-! ## Graph primitives (flow_graph_node.h) -/

/-- Node types, from `enum FlowNodeType` in flow_graph_node.h. -/
inductive FlowNodeType
  | ROOT_TASK
  | SCHEDULED_TASK
  | UNSCHEDULED_TASK
  | JOB_AGGREGATOR
  | SINK
  | EQUIVALENCE_CLASS
  | COORDINATOR
  | MACHINE
  | NUMA_NODE
  | SOCKET
  | CACHE
  | CORE
  | PU
deriving DecidableEq

/-- Task states. The TaskDescriptor protobuf is not part of the visible
sources; the states `ASSIGNED` and `RUNNING` are the ones named by
`FlowGraphNode::IsTaskAssignedOrRunning`, and `CREATED` / `COMPLETED` stand
for the remaining states, which that predicate treats uniformly. -/
inductive TaskState
  | CREATED
  | ASSIGNED
  | RUNNING
  | COMPLETED
deriving DecidableEq

/-- Job states. The JobDescriptor protobuf is not part of the visible
sources; `RUNNING` is the state named by `QuincyScheduler::ApplySchedulingDeltas`,
and `NEW` / `COMPLETED` stand for the remaining states. -/
inductive JobState
  | NEW
  | RUNNING
  | COMPLETED
deriving DecidableEq

/-- Task descriptor: the fields of the protobuf that the visible code reads
(`uid()`, `job_id()`, `state()`). Job ids are modelled as `Nat`. -/
structure TaskDescriptor where
  uid : Nat
  job_id : Nat
  state : TaskState
deriving DecidableEq

/-- Resource descriptor: only its identity is read by the visible code
(via `rs->mutable_descriptor()->uuid()`). -/
structure ResourceDescriptor where
  uuid : Nat
deriving DecidableEq

/-- Job descriptor: the only field the visible code reads/writes is `state`. -/
structure JobDescriptor where
  state : JobState
deriving DecidableEq

/-- `struct FlowGraphNode` of flow_graph_node.h. The two C++ pointer fields
`rd_ptr_` and `td_ptr_` become `Option`s; the adjacency maps keyed by the
other endpoint become association lists of `(endpoint, arc id)` pairs (their
content is irrelevant to the claims below, but the field must exist so that
the purity claims quantify over it). -/
structure FlowGraphNode where
  id_ : Nat
  excess_ : Int
  type_ : FlowNodeType
  job_id_ : Nat
  resource_id_ : Nat
  rd_ptr_ : Option ResourceDescriptor
  td_ptr_ : Option TaskDescriptor
  ec_id_ : Nat
  comment_ : String
  outgoing_arc_map_ : List (Nat × Nat)
  incoming_arc_map_ : List (Nat × Nat)
  visited_ : Nat
deriving DecidableEq

/-- `FlowGraphNode::IsEquivalenceClassNode`. -/
def FlowGraphNode.isEquivalenceClassNode (n : FlowGraphNode) : Bool :=
  n.type_ == FlowNodeType.EQUIVALENCE_CLASS

/-- `FlowGraphNode::IsResourceNode`. -/
def FlowGraphNode.isResourceNode (n : FlowGraphNode) : Bool :=
  n.type_ == FlowNodeType.COORDINATOR ||
  n.type_ == FlowNodeType.MACHINE ||
  n.type_ == FlowNodeType.NUMA_NODE ||
  n.type_ == FlowNodeType.SOCKET ||
  n.type_ == FlowNodeType.CACHE ||
  n.type_ == FlowNodeType.CORE ||
  n.type_ == FlowNodeType.PU

/-- `FlowGraphNode::IsTaskNode`. -/
def FlowGraphNode.isTaskNode (n : FlowGraphNode) : Bool :=
  n.type_ == FlowNodeType.ROOT_TASK ||
  n.type_ == FlowNodeType.SCHEDULED_TASK ||
  n.type_ == FlowNodeType.UNSCHEDULED_TASK

/-- `FlowGraphNode::IsTaskAssignedOrRunning`. The C++ code first does
`CHECK_NOTNULL(td_ptr_)` (fatal on a null descriptor, modelled as `none`)
and then reads `td_ptr_->state()`. -/
def FlowGraphNode.isTaskAssignedOrRunning (n : FlowGraphNode) : Option Bool :=
  match n.td_ptr_ with
  | none => none
  | some td =>
      some (td.state == TaskState.ASSIGNED || td.state == TaskState.RUNNING)

/-! ## Arcs and change records (dimacs_change_arc.h) -/

/-- Arc types, from the spec's data model (§3); `flow_graph_arc.h` is not
among the visible sources, but `RUNNING_ARC` and the type field are
referenced by the visible headers. -/
inductive FlowGraphArcType
  | TASK_TO_EQUIV
  | TASK_TO_RES
  | RES_TO_RES
  | TASK_TO_UNSCHED
  | UNSCHED_AGG_TO_SINK
  | RES_TO_SINK
  | RUNNING_ARC
  | OTHER
deriving DecidableEq

/-- Modelled from the spec: `FlowGraphArc` (its header `flow_graph_arc.h` is
not among the visible sources). Fields follow the spec's data model §3 and
the field names of `DIMACSChangeArc`, which copies them. -/
structure FlowGraphArc where
  src_ : Nat
  dst_ : Nat
  cap_lower_bound_ : Nat
  cap_upper_bound_ : Nat
  cost_ : Int
  type_ : FlowGraphArcType
deriving DecidableEq

/-- `class DIMACSChangeArc` of dimacs_change_arc.h: the CHANGE_ARC change
record's fields. -/
structure DIMACSChangeArc where
  src_ : Nat
  dst_ : Nat
  cap_lower_bound_ : Nat
  cap_upper_bound_ : Nat
  cost_ : Int
  type_ : FlowGraphArcType
  old_cost_ : Int
deriving DecidableEq

/-- Modelled from the spec: the `DIMACSChangeArc(const FlowGraphArc&, int64_t)`
constructor (declared in dimacs_change_arc.h; its .cc body is not among the
visible sources). Per spec §4.4 the record carries
`(src, dst, cap_lower, cap_upper, new_cost, arc_type, old_cost)`: every arc
field is copied and `old_cost_` is the supplied old cost. -/
def DIMACSChangeArc.ofArc (arc : FlowGraphArc) (old_cost : Int) : DIMACSChangeArc :=
  { src_ := arc.src_
    dst_ := arc.dst_
    cap_lower_bound_ := arc.cap_lower_bound_
    cap_upper_bound_ := arc.cap_upper_bound_
    cost_ := arc.cost_
    type_ := arc.type_
    old_cost_ := old_cost }

/-! ## Cost model selection (quincy_scheduler.cc, constructor) -/

/-- The six cost model variants named by the
`flow_scheduling_cost_model` flag documentation in quincy_scheduler.cc
(0 = TRIVIAL, 1 = RANDOM, 2 = SJF, 3 = QUINCY, 4 = WHARE, 5 = COCO). -/
inductive CostModelKind
  | TRIVIAL
  | RANDOM
  | SJF
  | QUINCY
  | WHARE
  | COCO
deriving DecidableEq

/-- Outcome of scheduler construction: either a cost model is selected, or
construction is fatal (`LOG(FATAL)`). -/
inductive CostModelSelection
  | ok (m : CostModelKind)
  | fatal
deriving DecidableEq

/-- The `switch (FLAGS_flow_scheduling_cost_model)` in the
`QuincyScheduler` constructor: cases `COST_MODEL_TRIVIAL` (0),
`COST_MODEL_RANDOM` (1), `COST_MODEL_SJF` (2) and `COST_MODEL_QUINCY` (3)
construct the corresponding cost model; the `default` branch is
`LOG(FATAL)`. The flag is an `int32`, modelled as `Int`. -/
def selectCostModel (v : Int) : CostModelSelection :=
  if v = 0 then CostModelSelection.ok CostModelKind.TRIVIAL
  else if v = 1 then CostModelSelection.ok CostModelKind.RANDOM
  else if v = 2 then CostModelSelection.ok CostModelKind.SJF
  else if v = 3 then CostModelSelection.ok CostModelKind.QUINCY
  else CostModelSelection.fatal

/-! ## Topology update dispatch (quincy_scheduler.cc) -/

/-- Which of the two flow-graph operations
`QuincyScheduler::UpdateResourceTopology` delegates to. -/
inductive TopologyAction
  | initialAdd
  | incrementalUpdate
deriving DecidableEq

/-- `QuincyScheduler::UpdateResourceTopology`: dispatches on
`flow_graph_->NumNodes()`; when it equals 1 the topology root is handed to
`AddResourceTopology` (initial addition), otherwise to
`UpdateResourceTopology` (incremental update). -/
def updateResourceTopologyAction (numNodes : Nat) : TopologyAction :=
  if numNodes = 1 then TopologyAction.initialAdd
  else TopologyAction.incrementalUpdate

/-- Modelled from the spec: the `FlowGraph` constructor (flow_graph.cc is not
among the visible sources) creates the SINK node and the cluster aggregator
node, which are never destroyed (spec §3, lifecycles), so a freshly
constructed graph has two nodes. -/
def numNodesAtConstruction : Nat := 2

/-! ## Task identifiers (google_trace_simulator.h) -/

/-- `struct TaskIdentifier` of google_trace_simulator.h. -/
structure TaskIdentifier where
  job_id : Nat
  task_index : Nat
deriving DecidableEq

/-- `TaskIdentifier::operator==`. -/
def TaskIdentifier.eqOp (a b : TaskIdentifier) : Bool :=
  a.job_id == b.job_id && a.task_index == b.task_index

/-- `TaskIdentifierHasher::operator()`: computes
`hash<uint64_t>()(job_id) * 17 + hash<uint64_t>()(task_index)` in `size_t`
arithmetic. The standard library hash is an arbitrary (deterministic)
function `h` of the value; `size_t` arithmetic wraps modulo `2 ^ 64`. -/
def taskIdentifierHash (h : Nat → Nat) (key : TaskIdentifier) : Nat :=
  (h key.job_id * 17 + h key.task_index) % 2 ^ 64

/-! ## Theorems -/

/-- Claim C1, counterexample: the claim says construction succeeds for every
selector in {0,1,2,3,4,5}, with 4 selecting WHARE and 5 selecting COCO; but
the constructor's switch has no case for 4 or 5, so both fall to the fatal
default branch. -/
theorem claim_C1_counterexample :
    selectCostModel 4 = CostModelSelection.fatal ∧
    selectCostModel 5 = CostModelSelection.fatal := by
  decide

/-- Claim C1, amended: selector values 0, 1, 2 and 3 select the TRIVIAL,
RANDOM, SJF and QUINCY cost models respectively and construction succeeds;
every other value, including 4 (WHARE) and 5 (COCO), is fatal at
construction. -/
theorem claim_C1_amended_thm (v : Int) :
    (v = 0 → selectCostModel v = CostModelSelection.ok CostModelKind.TRIVIAL) ∧
    (v = 1 → selectCostModel v = CostModelSelection.ok CostModelKind.RANDOM) ∧
    (v = 2 → selectCostModel v = CostModelSelection.ok CostModelKind.SJF) ∧
    (v = 3 → selectCostModel v = CostModelSelection.ok CostModelKind.QUINCY) ∧
    (v ≠ 0 → v ≠ 1 → v ≠ 2 → v ≠ 3 → selectCostModel v = CostModelSelection.fatal) := by
  refine ⟨fun h => by subst h; rfl,
          fun h => by subst h; rfl,
          fun h => by subst h; rfl,
          fun h => by subst h; rfl,
          fun h0 h1 h2 h3 => by simp [selectCostModel, h0, h1, h2, h3]⟩

/-- Claim C1, witness: the selector value 7 is none of 0, 1, 2, 3 and
construction with it is fatal. -/
theorem claim_C1_witness :
    (7 : Int) ≠ 0 ∧ selectCostModel 7 = CostModelSelection.fatal :=
  ⟨by decide,
   (claim_C1_amended_thm 7).2.2.2.2 (by decide) (by decide) (by decide) (by decide)⟩

/-- Claim C4, counterexample: two nodes with equal `type_` fields on which
`is_task_assigned_or_running` returns different results, because that
predicate reads the task descriptor's state, not the node type. -/
theorem claim_C4_counterexample :
    (let a : FlowGraphNode :=
      { id_ := 1, excess_ := 0, type_ := FlowNodeType.SCHEDULED_TASK,
        job_id_ := 0, resource_id_ := 0, rd_ptr_ := none,
        td_ptr_ := some { uid := 1, job_id := 0, state := TaskState.ASSIGNED },
        ec_id_ := 0, comment_ := "", outgoing_arc_map_ := [],
        incoming_arc_map_ := [], visited_ := 0 }
    let b : FlowGraphNode :=
      { id_ := 2, excess_ := 0, type_ := FlowNodeType.SCHEDULED_TASK,
        job_id_ := 0, resource_id_ := 0, rd_ptr_ := none,
        td_ptr_ := some { uid := 2, job_id := 0, state := TaskState.CREATED },
        ec_id_ := 0, comment_ := "", outgoing_arc_map_ := [],
        incoming_arc_map_ := [], visited_ := 0 }
    a.type_ = b.type_ ∧
      FlowGraphNode.isTaskAssignedOrRunning a ≠
        FlowGraphNode.isTaskAssignedOrRunning b) := by
  decide

/-- Claim C4, amended: `is_task_node`, `is_resource_node` and
`is_equivalence_class_node` are pure functions of the node's `type_` field;
`is_task_assigned_or_running` is instead a pure function of the node's task
descriptor pointer (fatal when it is null, otherwise determined by the
descriptor's state), independent of the node type and all other fields. -/
theorem claim_C4_amended_thm (a b : FlowGraphNode) :
    (a.type_ = b.type_ →
      a.isTaskNode = b.isTaskNode ∧
      a.isResourceNode = b.isResourceNode ∧
      a.isEquivalenceClassNode = b.isEquivalenceClassNode) ∧
    (a.td_ptr_ = b.td_ptr_ →
      a.isTaskAssignedOrRunning = b.isTaskAssignedOrRunning) := by
  constructor
  · intro h
    refine ⟨?_, ?_, ?_⟩ <;>
      simp [FlowGraphNode.isTaskNode, FlowGraphNode.isResourceNode,
            FlowGraphNode.isEquivalenceClassNode, h]
  · intro h
    simp [FlowGraphNode.isTaskAssignedOrRunning, h]

/-- Claim C4, witness: instantiating the amended theorem at two concrete
nodes sharing both the type field and the descriptor pointer. -/
theorem claim_C4_witness :
    (let a : FlowGraphNode :=
      { id_ := 1, excess_ := 0, type_ := FlowNodeType.PU,
        job_id_ := 0, resource_id_ := 3, rd_ptr_ := some { uuid := 3 },
        td_ptr_ := none, ec_id_ := 0, comment_ := "", outgoing_arc_map_ := [],
        incoming_arc_map_ := [], visited_ := 0 }
    let b : FlowGraphNode :=
      { id_ := 2, excess_ := 1, type_ := FlowNodeType.PU,
        job_id_ := 5, resource_id_ := 4, rd_ptr_ := some { uuid := 4 },
        td_ptr_ := none, ec_id_ := 1, comment_ := "x", outgoing_arc_map_ := [(1, 1)],
        incoming_arc_map_ := [], visited_ := 2 }
    a.isTaskNode = b.isTaskNode ∧
      a.isResourceNode = b.isResourceNode ∧
      a.isEquivalenceClassNode = b.isEquivalenceClassNode ∧
      a.isTaskAssignedOrRunning = b.isTaskAssignedOrRunning) := by
  intro a b
  obtain ⟨h1, h2, h3⟩ := (claim_C4_amended_thm a b).1 rfl
  exact ⟨h1, h2, h3, (claim_C4_amended_thm a b).2 rfl⟩

/-- Claim C5: the topology-update operation performs the initial
`AddResourceTopology` exactly when the flow graph contains exactly one node,
and in particular a freshly constructed graph (holding the SINK and the
cluster aggregator, so two nodes) is routed to the incremental
`UpdateResourceTopology`. -/
theorem claim_C5_thm (n : Nat) :
    (updateResourceTopologyAction n = TopologyAction.initialAdd ↔ n = 1) ∧
    updateResourceTopologyAction numNodesAtConstruction =
      TopologyAction.incrementalUpdate := by
  constructor
  · by_cases h : n = 1 <;> simp [updateResourceTopologyAction, h]
  · rfl

/-- Claim C5, witness: at node count 1 the action is the initial addition. -/
theorem claim_C5_witness :
    updateResourceTopologyAction 1 = TopologyAction.initialAdd :=
  (claim_C5_thm 1).1.mpr rfl

/-- Claim C8: the CHANGE_ARC record built from an arc and an old cost copies
exactly the arc's `(src, dst, cap_lower, cap_upper, cost, type)` fields and
stores the supplied old cost in `old_cost_`. -/
theorem claim_C8_thm (arc : FlowGraphArc) (oc : Int) :
    (DIMACSChangeArc.ofArc arc oc).src_ = arc.src_ ∧
    (DIMACSChangeArc.ofArc arc oc).dst_ = arc.dst_ ∧
    (DIMACSChangeArc.ofArc arc oc).cap_lower_bound_ = arc.cap_lower_bound_ ∧
    (DIMACSChangeArc.ofArc arc oc).cap_upper_bound_ = arc.cap_upper_bound_ ∧
    (DIMACSChangeArc.ofArc arc oc).cost_ = arc.cost_ ∧
    (DIMACSChangeArc.ofArc arc oc).type_ = arc.type_ ∧
    (DIMACSChangeArc.ofArc arc oc).old_cost_ = oc :=
  ⟨rfl, rfl, rfl, rfl, rfl, rfl, rfl⟩

/-- Claim C10: `TaskIdentifier::operator==` holds exactly when both the job
id and the task index agree, and the hasher is consistent with it: equal
identifiers hash equally for every underlying `hash<uint64_t>` function. -/
theorem claim_C10_thm (a b : TaskIdentifier) :
    (TaskIdentifier.eqOp a b = true ↔
      a.job_id = b.job_id ∧ a.task_index = b.task_index) ∧
    (TaskIdentifier.eqOp a b = true →
      ∀ h : Nat → Nat, taskIdentifierHash h a = taskIdentifierHash h b) := by
  constructor
  · simp [TaskIdentifier.eqOp]
  · intro he h
    simp [TaskIdentifier.eqOp] at he
    simp [taskIdentifierHash, he.1, he.2]

/-- Claim C10, witness: two syntactically different but equal identifiers
compare equal and hash equally under the successor function as hash. -/
theorem claim_C10_witness :
    TaskIdentifier.eqOp { job_id := 3, task_index := 5 }
        { job_id := 3, task_index := 5 } = true ∧
    taskIdentifierHash Nat.succ { job_id := 3, task_index := 5 } =
      taskIdentifierHash Nat.succ { job_id := 3, task_index := 5 } :=
  ⟨by decide,
   (claim_C10_thm { job_id := 3, task_index := 5 }
      { job_id := 3, task_index := 5 }).2 (by decide) Nat.succ⟩

/-! ## Scheduling deltas and their application (quincy_scheduler.cc) -/

/-- Delta types of the `SchedulingDelta` protobuf, per spec §6 (the protobuf
file is not among the visible sources; `PLACE` and `NOOP` are the types the
visible code reads). -/
inductive DeltaType
  | PLACE
  | NOOP
  | PREEMPT
  | MIGRATE
deriving DecidableEq

/-- A scheduling delta: `{ type, task_id, resource_id, actioned }` (spec §6).
Resource ids are modelled as `Nat` (the `ResourceIDFromString` conversion the
code performs is identity in this model). -/
structure SchedulingDelta where
  type : DeltaType
  task_id : Nat
  resource_id : Nat
  actioned : Bool
deriving DecidableEq

/-- Resource status wrapper, as dereferenced via `rs->mutable_descriptor()`. -/
structure ResourceStatus where
  descriptor : ResourceDescriptor
deriving DecidableEq

/-- The state `ApplySchedulingDeltas` mutates: the job map (job id to
descriptor, a pointer map modelled as a partial function) and two event
lists recording the calls to `BindTaskToResource` and to
`FlowGraph::UpdateArcsForBoundTask`, each entry a `(task id, resource id)`
pair in call order. -/
structure ApplyState where
  job_map : Nat → Option JobDescriptor
  bindings : List (Nat × Nat)
  arc_updates : List (Nat × Nat)

/-- Point update of a job map. -/
def updateJobMap (jm : Nat → Option JobDescriptor) (j : Nat)
    (jd : JobDescriptor) : Nat → Option JobDescriptor :=
  fun k => if k = j then some jd else jm k

/-- The job-state update in `ApplySchedulingDeltas`:
`jd = FindOrNull(*job_map_, job_id)` followed by an unchecked dereference
(`none` models the null-pointer crash on an absent job), then
`if (jd->state() != RUNNING) jd->set_state(RUNNING)`. -/
def markJobRunning (jm : Nat → Option JobDescriptor) (j : Nat) :
    Option (Nat → Option JobDescriptor) :=
  match jm j with
  | none => none
  | some jd =>
      if jd.state ≠ JobState.RUNNING then
        some (updateJobMap jm j { jd with state := JobState.RUNNING })
      else some jm

/-- One loop iteration of `QuincyScheduler::ApplySchedulingDeltas`.
For a `PLACE` delta: look up the task and resource descriptors
(`CHECK_NOTNULL` is fatal on either being absent, modelled as `none`);
bind the task; call `UpdateArcsForBoundTask`; mark the job RUNNING;
increment `num_scheduled`; set the delta's `actioned` flag. Any other
delta type is skipped. Returns the new state, the (possibly updated)
delta, and the `num_scheduled` increment. -/
def applyDelta (task_map : Nat → Option TaskDescriptor)
    (resource_map : Nat → Option ResourceStatus)
    (st : ApplyState) (d : SchedulingDelta) :
    Option (ApplyState × SchedulingDelta × Nat) :=
  if d.type = DeltaType.PLACE then
    match task_map d.task_id, resource_map d.resource_id with
    | some td, some _rs =>
        match markJobRunning st.job_map td.job_id with
        | none => none
        | some jm =>
            some ({ job_map := jm,
                    bindings := st.bindings ++ [(d.task_id, d.resource_id)],
                    arc_updates := st.arc_updates ++ [(d.task_id, d.resource_id)] },
                  { d with actioned := true }, 1)
    | _, _ => none
  else some (st, d, 0)

/-- `QuincyScheduler::ApplySchedulingDeltas`: folds `applyDelta` over the
delta vector in order, accumulating `num_scheduled`. Returns the final
state, the deltas with their updated `actioned` flags (the C++ code mutates
them through pointers), and `num_scheduled`; `none` models a fatal abort. -/
def applySchedulingDeltas (task_map : Nat → Option TaskDescriptor)
    (resource_map : Nat → Option ResourceStatus) :
    ApplyState → List SchedulingDelta →
    Option (ApplyState × List SchedulingDelta × Nat)
  | st, [] => some (st, [], 0)
  | st, d :: rest =>
      (applyDelta task_map resource_map st d).bind fun r =>
        (applySchedulingDeltas task_map resource_map r.1 rest).map fun r2 =>
          (r2.1, r.2.1 :: r2.2.1, r.2.2 + r2.2.2)

/-- The `(task id, resource id)` pairs of the PLACE deltas of a list, in
order. -/
def placePairs (ds : List SchedulingDelta) : List (Nat × Nat) :=
  (ds.filter (fun d => d.type == DeltaType.PLACE)).map
    (fun d => (d.task_id, d.resource_id))

/-- The effect of one `ApplySchedulingDeltas` pass on a delta's flag: PLACE
deltas are marked actioned, all others are untouched. -/
def markActioned (d : SchedulingDelta) : SchedulingDelta :=
  if d.type == DeltaType.PLACE then { d with actioned := true } else d

/-- Claim C6: if any PLACE delta of the vector has a missing task descriptor
or a missing resource descriptor, `ApplySchedulingDeltas` is fatal
(`CHECK_NOTNULL`), regardless of the other deltas: the whole application
aborts rather than skipping the delta or returning an error value. -/
theorem claim_C6_thm (task_map : Nat → Option TaskDescriptor)
    (resource_map : Nat → Option ResourceStatus)
    (deltas : List SchedulingDelta) (d : SchedulingDelta)
    (hd : d ∈ deltas) (hty : d.type = DeltaType.PLACE)
    (hmiss : task_map d.task_id = none ∨ resource_map d.resource_id = none) :
    ∀ st : ApplyState,
      applySchedulingDeltas task_map resource_map st deltas = none := by
  induction deltas with
  | nil => cases hd
  | cons e rest ih =>
      intro st
      rcases List.mem_cons.mp hd with he | hrest
      · subst he
        have happ : applyDelta task_map resource_map st d = none := by
          unfold applyDelta
          rw [if_pos hty]
          rcases hmiss with h | h
          · rw [h]
          · rw [h]
            cases task_map d.task_id <;> rfl
        unfold applySchedulingDeltas
        simp [happ]
      · unfold applySchedulingDeltas
        cases happ : applyDelta task_map resource_map st e with
        | none => simp [happ]
        | some r => simp [happ, ih hrest]

/-- Claim C6, witness: a single PLACE delta whose task id is absent from the
task map makes the whole application fatal. -/
theorem claim_C6_witness :
    applySchedulingDeltas (fun _ => none) (fun _ => none)
      { job_map := fun _ => none, bindings := [], arc_updates := [] }
      [{ type := DeltaType.PLACE, task_id := 7, resource_id := 0,
         actioned := false }] = none :=
  claim_C6_thm (fun _ => none) (fun _ => none) _ _
    (List.mem_singleton.mpr rfl) rfl (Or.inl rfl) _

/-! ## Helper lemmas about the job-state update -/

theorem markJobRunning_isSome (jm : Nat → Option JobDescriptor) (j : Nat)
    (h : (jm j).isSome) : ∃ jm1, markJobRunning jm j = some jm1 := by
  cases hj : jm j with
  | none => rw [hj] at h; cases h
  | some jd =>
      unfold markJobRunning
      rw [hj]
      by_cases hs : jd.state = JobState.RUNNING
      · exact ⟨jm, by simp [hs]⟩
      · exact ⟨updateJobMap jm j { jd with state := JobState.RUNNING },
          by simp [hs]⟩

theorem markJobRunning_spec (jm : Nat → Option JobDescriptor) (j : Nat)
    (jm1 : Nat → Option JobDescriptor) (h : markJobRunning jm j = some jm1) :
    jm1 j = some { state := JobState.RUNNING } ∧
    (∀ k, (jm k).isSome → (jm1 k).isSome) ∧
    (∀ k, jm k = some { state := JobState.RUNNING } →
      jm1 k = some { state := JobState.RUNNING }) := by
  unfold markJobRunning at h
  split at h
  · exact Option.noConfusion h
  · next jd hj =>
      split at h
      · obtain rfl := Option.some.inj h
        refine ⟨by simp [updateJobMap], ?_, ?_⟩
        · intro k hk
          unfold updateJobMap
          by_cases hkj : k = j <;> simp [hkj, hk]
        · intro k hk
          unfold updateJobMap
          by_cases hkj : k = j <;> simp [hkj, hk]
      · next hs =>
          obtain rfl := Option.some.inj h
          have hss : jd.state = JobState.RUNNING := not_not.mp hs
          have hjd : jd = { state := JobState.RUNNING } :=
            congrArg JobDescriptor.mk hss
          exact ⟨by rw [← hjd]; exact hj, fun k hk => hk, fun k hk => hk⟩

/-! ## Helper lemmas about one delta-application step -/

theorem applyDelta_place_eq (tm : Nat → Option TaskDescriptor)
    (rm : Nat → Option ResourceStatus) (st : ApplyState)
    (d : SchedulingDelta) (td : TaskDescriptor) (rs : ResourceStatus)
    (jm1 : Nat → Option JobDescriptor)
    (hty : d.type = DeltaType.PLACE)
    (htd : tm d.task_id = some td) (hrs : rm d.resource_id = some rs)
    (hmark : markJobRunning st.job_map td.job_id = some jm1) :
    applyDelta tm rm st d = some
      ({ job_map := jm1,
         bindings := st.bindings ++ [(d.task_id, d.resource_id)],
         arc_updates := st.arc_updates ++ [(d.task_id, d.resource_id)] },
       { d with actioned := true }, 1) := by
  unfold applyDelta
  rw [if_pos hty, htd, hrs]
  simp [hmark]

theorem applyDelta_nonplace_eq (tm : Nat → Option TaskDescriptor)
    (rm : Nat → Option ResourceStatus) (st : ApplyState)
    (d : SchedulingDelta) (hty : d.type ≠ DeltaType.PLACE) :
    applyDelta tm rm st d = some (st, d, 0) := by
  unfold applyDelta
  rw [if_neg hty]

theorem applyDelta_none_of_missing_task (tm : Nat → Option TaskDescriptor)
    (rm : Nat → Option ResourceStatus) (st : ApplyState)
    (d : SchedulingDelta) (hty : d.type = DeltaType.PLACE)
    (htd : tm d.task_id = none) :
    applyDelta tm rm st d = none := by
  unfold applyDelta
  rw [if_pos hty, htd]

theorem applyDelta_none_of_missing_res (tm : Nat → Option TaskDescriptor)
    (rm : Nat → Option ResourceStatus) (st : ApplyState)
    (d : SchedulingDelta) (td : TaskDescriptor) (hty : d.type = DeltaType.PLACE)
    (htd : tm d.task_id = some td) (hrs : rm d.resource_id = none) :
    applyDelta tm rm st d = none := by
  unfold applyDelta
  rw [if_pos hty, htd, hrs]

theorem applyDelta_none_of_missing_job (tm : Nat → Option TaskDescriptor)
    (rm : Nat → Option ResourceStatus) (st : ApplyState)
    (d : SchedulingDelta) (td : TaskDescriptor) (rs : ResourceStatus)
    (hty : d.type = DeltaType.PLACE)
    (htd : tm d.task_id = some td) (hrs : rm d.resource_id = some rs)
    (hmark : markJobRunning st.job_map td.job_id = none) :
    applyDelta tm rm st d = none := by
  unfold applyDelta
  rw [if_pos hty, htd, hrs]
  simp [hmark]

theorem applyDelta_preserves_running (tm : Nat → Option TaskDescriptor)
    (rm : Nat → Option ResourceStatus) (st st1 : ApplyState)
    (d d1 : SchedulingDelta) (inc : Nat)
    (h : applyDelta tm rm st d = some (st1, d1, inc)) (k : Nat)
    (hk : st.job_map k = some { state := JobState.RUNNING }) :
    st1.job_map k = some { state := JobState.RUNNING } := by
  by_cases hty : d.type = DeltaType.PLACE
  · cases htd : tm d.task_id with
    | none =>
        rw [applyDelta_none_of_missing_task tm rm st d hty htd] at h
        exact Option.noConfusion h
    | some td =>
        cases hrs : rm d.resource_id with
        | none =>
            rw [applyDelta_none_of_missing_res tm rm st d td hty htd hrs] at h
            exact Option.noConfusion h
        | some rs =>
            cases hmark : markJobRunning st.job_map td.job_id with
            | none =>
                rw [applyDelta_none_of_missing_job tm rm st d td rs hty htd hrs
                  hmark] at h
                exact Option.noConfusion h
            | some jm1 =>
                rw [applyDelta_place_eq tm rm st d td rs jm1 hty htd hrs hmark] at h
                have h' := Option.some.inj h
                have hjm : jm1 = st1.job_map := congrArg (fun r => r.1.job_map) h'
                rw [← hjm]
                exact (markJobRunning_spec _ _ _ hmark).2.2 k hk
  · rw [applyDelta_nonplace_eq tm rm st d hty] at h
    have h' := Option.some.inj h
    have hst : st = st1 := congrArg (fun r => r.1) h'
    rw [← hst]
    exact hk

theorem applySchedulingDeltas_preserves_running
    (tm : Nat → Option TaskDescriptor) (rm : Nat → Option ResourceStatus)
    (ds : List SchedulingDelta) :
    ∀ (st st2 : ApplyState) (l : List SchedulingDelta) (n : Nat),
      applySchedulingDeltas tm rm st ds = some (st2, l, n) →
      ∀ k, st.job_map k = some { state := JobState.RUNNING } →
        st2.job_map k = some { state := JobState.RUNNING } := by
  induction ds with
  | nil =>
      intro st st2 l n h k hk
      have hst : st = st2 := congrArg (fun r => r.1) (Option.some.inj h)
      rw [← hst]
      exact hk
  | cons d rest ih =>
      intro st st2 l n h k hk
      unfold applySchedulingDeltas at h
      rw [Option.bind_eq_some] at h
      obtain ⟨r, happ, h2⟩ := h
      rw [Option.map_eq_some'] at h2
      obtain ⟨r2, hrec, heq⟩ := h2
      have hst : r2.1 = st2 := congrArg (fun t => t.1) heq
      have hk1 := applyDelta_preserves_running tm rm st r.1 d r.2.1 r.2.2 happ k hk
      have hmain := ih r.1 r2.1 r2.2.1 r2.2.2 hrec k hk1
      rw [← hst]
      exact hmain

/-- Claim C2: when every PLACE delta's task descriptor, resource descriptor
and (via the task) job descriptor are present, `ApplySchedulingDeltas`
returns exactly the number of PLACE deltas; it binds each PLACE delta's
task, calls `UpdateArcsForBoundTask` for it (both recorded in order), marks
exactly the PLACE deltas actioned, and leaves every placed task's job in
the RUNNING state. -/
theorem claim_C2_thm (tm : Nat → Option TaskDescriptor)
    (rm : Nat → Option ResourceStatus) (deltas : List SchedulingDelta) :
    ∀ st : ApplyState,
      (∀ d ∈ deltas, d.type = DeltaType.PLACE →
        ∃ td, tm d.task_id = some td ∧ (rm d.resource_id).isSome ∧
          (st.job_map td.job_id).isSome) →
      ∃ st2,
        applySchedulingDeltas tm rm st deltas =
          some (st2, deltas.map markActioned,
            (deltas.filter fun d => d.type == DeltaType.PLACE).length) ∧
        st2.bindings = st.bindings ++ placePairs deltas ∧
        st2.arc_updates = st.arc_updates ++ placePairs deltas ∧
        ∀ d ∈ deltas, d.type = DeltaType.PLACE →
          ∀ td, tm d.task_id = some td →
            st2.job_map td.job_id = some { state := JobState.RUNNING } := by
  induction deltas with
  | nil =>
      intro st _
      exact ⟨st, rfl, by simp [placePairs], by simp [placePairs], by simp⟩
  | cons d rest ih =>
      intro st H
      by_cases hty : d.type = DeltaType.PLACE
      · obtain ⟨td, htd, hrsS, hjob⟩ := H d (List.mem_cons_self d rest) hty
        obtain ⟨rs, hrs⟩ := Option.isSome_iff_exists.mp hrsS
        obtain ⟨jm1, hmark⟩ := markJobRunning_isSome _ _ hjob
        obtain ⟨hset, hpres, hrun⟩ := markJobRunning_spec _ _ _ hmark
        have happ := applyDelta_place_eq tm rm st d td rs jm1 hty htd hrs hmark
        obtain ⟨st2, happ2, hbind, harc, hjobs⟩ :=
          ih { job_map := jm1,
               bindings := st.bindings ++ [(d.task_id, d.resource_id)],
               arc_updates := st.arc_updates ++ [(d.task_id, d.resource_id)] }
            (by
              intro d' hd' hty'
              obtain ⟨td', h1, h2, h3⟩ := H d' (List.mem_cons_of_mem d hd') hty'
              exact ⟨td', h1, h2, hpres _ h3⟩)
        refine ⟨st2, ?_, ?_, ?_, ?_⟩
        · unfold applySchedulingDeltas
          simp only [happ, Option.some_bind, happ2, Option.map_some']
          simp [markActioned, hty, List.filter_cons, Nat.add_comm]
        · rw [hbind]
          simp [placePairs, List.filter_cons, hty, List.append_assoc]
        · rw [harc]
          simp [placePairs, List.filter_cons, hty, List.append_assoc]
        · intro d2 hd2 hty2 td2 htd2
          rcases List.mem_cons.mp hd2 with heq | hmem
          · subst heq
            have htdeq : td2 = td := by
              rw [htd] at htd2
              exact (Option.some.inj htd2).symm
            subst htdeq
            exact applySchedulingDeltas_preserves_running tm rm rest _ st2 _ _
              happ2 td2.job_id hset
          · exact hjobs d2 hmem hty2 td2 htd2
      · have happ := applyDelta_nonplace_eq tm rm st d hty
        obtain ⟨st2, happ2, hbind, harc, hjobs⟩ :=
          ih st (fun d' hd' hty' => H d' (List.mem_cons_of_mem d hd') hty')
        refine ⟨st2, ?_, ?_, ?_, ?_⟩
        · unfold applySchedulingDeltas
          simp only [happ, Option.some_bind, happ2, Option.map_some']
          simp [markActioned, hty, List.filter_cons]
        · rw [hbind]
          simp [placePairs, List.filter_cons, hty]
        · rw [harc]
          simp [placePairs, List.filter_cons, hty]
        · intro d2 hd2 hty2 td2 htd2
          rcases List.mem_cons.mp hd2 with heq | hmem
          · subst heq
            exact absurd hty2 hty
          · exact hjobs d2 hmem hty2 td2 htd2

/-- A PLACE delta placing task 1 on resource 2, for concrete runs. -/
def samplePlaceDelta : SchedulingDelta :=
  { type := DeltaType.PLACE, task_id := 1, resource_id := 2, actioned := false }

/-- A PREEMPT delta for task 1 and resource 2, for concrete runs: it is
built (non-NOOP) but never actioned by `ApplySchedulingDeltas`. -/
def samplePreemptDelta : SchedulingDelta :=
  { type := DeltaType.PREEMPT, task_id := 1, resource_id := 2, actioned := false }

/-- Task map for concrete runs: task 1 belongs to job 10. -/
def sampleTaskMap : Nat → Option TaskDescriptor :=
  fun n => if n = 1 then
    some { uid := 1, job_id := 10, state := TaskState.CREATED } else none

/-- Resource map for concrete runs: resource 2 exists. -/
def sampleResourceMap : Nat → Option ResourceStatus :=
  fun n => if n = 2 then some { descriptor := { uuid := 2 } } else none

/-- Apply state for concrete runs: job 10 exists and is not yet RUNNING. -/
def sampleApplyState : ApplyState :=
  { job_map := fun j => if j = 10 then some { state := JobState.NEW } else none,
    bindings := [], arc_updates := [] }

/-- Claim C2, witness: one PLACE delta placing task 1 (of job 10) on
resource 2 is applied; the count is the number of PLACE deltas (one), the
bind and arc-update calls are recorded, the delta is marked actioned and
job 10 ends RUNNING. -/
theorem claim_C2_witness :
    ∃ st2,
      applySchedulingDeltas sampleTaskMap sampleResourceMap sampleApplyState
        [samplePlaceDelta] =
        some (st2, [samplePlaceDelta].map markActioned,
          ([samplePlaceDelta].filter fun d => d.type == DeltaType.PLACE).length) ∧
      st2.bindings = sampleApplyState.bindings ++ placePairs [samplePlaceDelta] ∧
      st2.arc_updates =
        sampleApplyState.arc_updates ++ placePairs [samplePlaceDelta] ∧
      ∀ d ∈ [samplePlaceDelta], d.type = DeltaType.PLACE →
        ∀ td, sampleTaskMap d.task_id = some td →
          st2.job_map td.job_id = some { state := JobState.RUNNING } :=
  claim_C2_thm sampleTaskMap sampleResourceMap [samplePlaceDelta]
    sampleApplyState (by
      intro d hd hty
      rw [List.mem_singleton] at hd
      subst hd
      exact ⟨{ uid := 1, job_id := 10, state := TaskState.CREATED },
        rfl, rfl, rfl⟩)

/-! ## One scheduling iteration and job scheduling (quincy_scheduler.cc) -/

/-- The scheduler state `RunSchedulingIteration` touches: the flow-graph
node types (the only graph attribute it writes, via
`Node(id)->type_.set_type(SCHEDULED_TASK)`), the task and resource maps,
and the state mutated by `ApplySchedulingDeltas`. -/
structure SchedulerState where
  graphTypes : Nat → FlowNodeType
  task_map : Nat → Option TaskDescriptor
  resource_map : Nat → Option ResourceStatus
  apply_st : ApplyState

/-- One iteration of the first loop of `RunSchedulingIteration`: build the
delta for a task mapping via `NodeBindingToSchedulingDelta` (abstracted as
the `nodeBinding` parameter — the dispatcher is not among the visible
sources); a NOOP delta is skipped (`continue`), any other delta causes the
mapping's source node to be relabelled SCHEDULED_TASK and the delta to be
remembered. -/
def buildDeltasStep (nodeBinding : Nat → Nat → SchedulingDelta)
    (acc : (Nat → FlowNodeType) × List SchedulingDelta) (m : Nat × Nat) :
    (Nat → FlowNodeType) × List SchedulingDelta :=
  let delta := nodeBinding m.1 m.2
  if delta.type = DeltaType.NOOP then acc
  else ((fun k => if k = m.1 then FlowNodeType.SCHEDULED_TASK else acc.1 k),
        acc.2 ++ [delta])

/-- The first loop of `RunSchedulingIteration` over the dispatcher's task
mappings, in order. -/
def buildDeltas (nodeBinding : Nat → Nat → SchedulingDelta)
    (g : Nat → FlowNodeType) (mappings : List (Nat × Nat)) :
    (Nat → FlowNodeType) × List SchedulingDelta :=
  mappings.foldl (buildDeltasStep nodeBinding) (g, [])

/-- `QuincyScheduler::RunSchedulingIteration`: build the deltas from the
dispatcher's task mappings (relabelling the mapped task nodes), apply them
with `ApplySchedulingDeltas`, and return its count as `num_scheduled`.
Deltas still un-actioned after the application are only collected (the C++
code erases the actioned ones and warns when any remain) — they are
returned here as the third component, which the caller discards. -/
def runSchedulingIteration (nodeBinding : Nat → Nat → SchedulingDelta)
    (s : SchedulerState) (mappings : List (Nat × Nat)) :
    Option (SchedulerState × Nat × List SchedulingDelta) :=
  let built := buildDeltas nodeBinding s.graphTypes mappings
  (applySchedulingDeltas s.task_map s.resource_map s.apply_st built.2).map
    fun r =>
      ({ s with graphTypes := built.1, apply_st := r.1 },
       r.2.2, r.2.1.filter fun d => !d.actioned)

/-- `QuincyScheduler::ScheduleJob`: under the scheduling lock, collect the
job's runnable tasks (`RunnableTasksForJob`, computed by the superclass and
abstracted as the `runnable_tasks` parameter); if there are none return 0,
otherwise call `AddOrUpdateJobNodes` (a flow-graph method not among the
visible sources, abstracted as a parameter) and run one scheduling
iteration, returning its count. -/
def scheduleJob (nodeBinding : Nat → Nat → SchedulingDelta)
    (addOrUpdateJobNodes : SchedulerState → SchedulerState)
    (runnable_tasks : List Nat) (s : SchedulerState)
    (mappings : List (Nat × Nat)) : Option (SchedulerState × Nat) :=
  if runnable_tasks.length > 0 then
    (runSchedulingIteration nodeBinding (addOrUpdateJobNodes s) mappings).map
      fun r => (r.1, r.2.1)
  else some (s, 0)

/-- Claim C7: whatever count `ApplySchedulingDeltas` returns, the
iteration's return value is exactly that count; the deltas still
un-actioned afterwards are merely collected (dropped with a warning) and do
not change it. -/
theorem claim_C7_thm (nb : Nat → Nat → SchedulingDelta) (s : SchedulerState)
    (mappings : List (Nat × Nat)) (st2 : ApplyState)
    (ds : List SchedulingDelta) (n : Nat)
    (h : applySchedulingDeltas s.task_map s.resource_map s.apply_st
      (buildDeltas nb s.graphTypes mappings).2 = some (st2, ds, n)) :
    ∃ s2 dropped,
      runSchedulingIteration nb s mappings = some (s2, n, dropped) ∧
      dropped = ds.filter (fun d => !d.actioned) ∧
      ∀ d ∈ dropped, d.actioned = false := by
  refine ⟨{ s with graphTypes := (buildDeltas nb s.graphTypes mappings).1, apply_st := st2 }, ds.filter (fun d => !d.actioned), ?_, rfl, ?_⟩
  · unfold runSchedulingIteration
    simp only [h, Option.map_some']
  · intro d hd
    simpa using List.of_mem_filter hd

/-- Node-binding stub producing PREEMPT deltas. -/
def preemptBinding : Nat → Nat → SchedulingDelta :=
  fun a b =>
    { type := DeltaType.PREEMPT, task_id := a, resource_id := b,
      actioned := false }

/-- A scheduler state with empty maps, for concrete runs. -/
def emptySchedulerState : SchedulerState :=
  { graphTypes := fun _ => FlowNodeType.ROOT_TASK,
    task_map := fun _ => none, resource_map := fun _ => none,
    apply_st := { job_map := fun _ => none, bindings := [],
                  arc_updates := [] } }

/-- Claim C7, witness: a PREEMPT delta is built, never actioned, ends up in
the dropped list, and the iteration still returns the apply count 0. -/
theorem claim_C7_witness :
    ∃ s2 dropped,
      runSchedulingIteration preemptBinding emptySchedulerState [(1, 2)] =
        some (s2, 0, dropped) ∧
      dropped = [samplePreemptDelta].filter (fun d => !d.actioned) ∧
      ∀ d ∈ dropped, d.actioned = false :=
  claim_C7_thm preemptBinding emptySchedulerState [(1, 2)]
    emptySchedulerState.apply_st [samplePreemptDelta] 0 rfl

/-! ## Lemmas about the delta-building loop -/

theorem buildDeltasStep_noop (nb : Nat → Nat → SchedulingDelta)
    (acc : (Nat → FlowNodeType) × List SchedulingDelta) (m : Nat × Nat)
    (hn : (nb m.1 m.2).type = DeltaType.NOOP) :
    buildDeltasStep nb acc m = acc := by
  unfold buildDeltasStep
  simp [hn]

theorem buildDeltasStep_eq (nb : Nat → Nat → SchedulingDelta)
    (acc : (Nat → FlowNodeType) × List SchedulingDelta) (m : Nat × Nat)
    (hn : (nb m.1 m.2).type ≠ DeltaType.NOOP) :
    buildDeltasStep nb acc m =
      ((fun k => if k = m.1 then FlowNodeType.SCHEDULED_TASK else acc.1 k),
       acc.2 ++ [nb m.1 m.2]) := by
  unfold buildDeltasStep
  simp [hn]

theorem buildDeltas_fold_snd (nb : Nat → Nat → SchedulingDelta)
    (mappings : List (Nat × Nat)) :
    ∀ (g : Nat → FlowNodeType) (acc : List SchedulingDelta),
      (mappings.foldl (buildDeltasStep nb) (g, acc)).2 =
        acc ++ (mappings.map (fun m => nb m.1 m.2)).filter
          (fun d => !(d.type == DeltaType.NOOP)) := by
  induction mappings with
  | nil => intro g acc; simp
  | cons m rest ih =>
      intro g acc
      simp only [List.foldl_cons, List.map_cons, List.filter_cons]
      by_cases hn : (nb m.1 m.2).type = DeltaType.NOOP
      · rw [buildDeltasStep_noop nb (g, acc) m hn]
        simp [hn, ih]
      · rw [buildDeltasStep_eq nb (g, acc) m hn, ih]
        simp [hn, List.append_assoc]

theorem buildDeltasStep_preserves (nb : Nat → Nat → SchedulingDelta)
    (acc : (Nat → FlowNodeType) × List SchedulingDelta) (m : Nat × Nat)
    (k : Nat) (h : acc.1 k = FlowNodeType.SCHEDULED_TASK) :
    (buildDeltasStep nb acc m).1 k = FlowNodeType.SCHEDULED_TASK := by
  by_cases hn : (nb m.1 m.2).type = DeltaType.NOOP
  · rw [buildDeltasStep_noop nb acc m hn]
    exact h
  · rw [buildDeltasStep_eq nb acc m hn]
    by_cases hk : k = m.1 <;> simp [hk, h]

theorem buildDeltas_fold_preserves (nb : Nat → Nat → SchedulingDelta)
    (mappings : List (Nat × Nat)) :
    ∀ (acc : (Nat → FlowNodeType) × List SchedulingDelta) (k : Nat),
      acc.1 k = FlowNodeType.SCHEDULED_TASK →
      (mappings.foldl (buildDeltasStep nb) acc).1 k =
        FlowNodeType.SCHEDULED_TASK := by
  induction mappings with
  | nil => intro acc k h; exact h
  | cons m rest ih =>
      intro acc k h
      simp only [List.foldl_cons]
      exact ih _ k (buildDeltasStep_preserves nb acc m k h)

theorem buildDeltas_fold_relabels (nb : Nat → Nat → SchedulingDelta)
    (mappings : List (Nat × Nat)) :
    ∀ (acc : (Nat → FlowNodeType) × List SchedulingDelta) (m : Nat × Nat),
      m ∈ mappings → (nb m.1 m.2).type ≠ DeltaType.NOOP →
      (mappings.foldl (buildDeltasStep nb) acc).1 m.1 =
        FlowNodeType.SCHEDULED_TASK := by
  induction mappings with
  | nil => intro acc m hm; cases hm
  | cons e rest ih =>
      intro acc m hm hn
      rcases List.mem_cons.mp hm with heq | hmem
      · subst heq
        simp only [List.foldl_cons]
        apply buildDeltas_fold_preserves
        rw [buildDeltasStep_eq nb acc m hn]
        simp
      · simp only [List.foldl_cons]
        exact ih _ m hmem hn

/-- Claim C9: the deltas handed to `ApplySchedulingDeltas` are exactly the
non-NOOP deltas of the dispatcher's mappings (NOOP deltas are discarded by
the `continue`), the building loop relabels the mapped task node of every
non-NOOP delta to SCHEDULED_TASK before the application runs, and that
relabelling survives into the iteration's final state regardless of whether
the delta was ever actioned. -/
theorem claim_C9_thm (nb : Nat → Nat → SchedulingDelta) (s : SchedulerState)
    (mappings : List (Nat × Nat)) :
    (buildDeltas nb s.graphTypes mappings).2 =
      (mappings.map (fun m => nb m.1 m.2)).filter
        (fun d => !(d.type == DeltaType.NOOP)) ∧
    (∀ m ∈ mappings, (nb m.1 m.2).type ≠ DeltaType.NOOP →
      (buildDeltas nb s.graphTypes mappings).1 m.1 =
        FlowNodeType.SCHEDULED_TASK) ∧
    (∀ s2 n dropped,
      runSchedulingIteration nb s mappings = some (s2, n, dropped) →
      ∀ m ∈ mappings, (nb m.1 m.2).type ≠ DeltaType.NOOP →
        s2.graphTypes m.1 = FlowNodeType.SCHEDULED_TASK) := by
  refine ⟨?_, ?_, ?_⟩
  · simpa using buildDeltas_fold_snd nb mappings s.graphTypes []
  · intro m hm hn
    exact buildDeltas_fold_relabels nb mappings _ m hm hn
  · intro s2 n dropped h m hm hn
    simp only [runSchedulingIteration] at h
    rw [Option.map_eq_some'] at h
    obtain ⟨r, -, heq⟩ := h
    have hs2 : ({ s with graphTypes := (buildDeltas nb s.graphTypes mappings).1, apply_st := r.1 } : SchedulerState) = s2 :=
      congrArg (fun t => t.1) heq
    rw [← hs2]
    exact buildDeltas_fold_relabels nb mappings _ m hm hn

/-- Claim C9, witness: a PREEMPT (non-NOOP) delta for the mapping (1, 2)
causes node 1 to be relabelled SCHEDULED_TASK by the building loop. -/
theorem claim_C9_witness :
    (buildDeltas preemptBinding emptySchedulerState.graphTypes [(1, 2)]).1 1 =
      FlowNodeType.SCHEDULED_TASK :=
  (claim_C9_thm preemptBinding emptySchedulerState [(1, 2)]).2.1 (1, 2)
    (List.mem_singleton.mpr rfl) (by decide)

/-- Claim C3: with no runnable task, `ScheduleJob` returns 0 and the
scheduler state is untouched (neither `AddOrUpdateJobNodes` nor an
iteration runs); with at least one runnable task it first applies
`AddOrUpdateJobNodes` to the state, then runs one scheduling iteration and
returns that iteration's count. -/
theorem claim_C3_thm (nb : Nat → Nat → SchedulingDelta)
    (addOrUpdateJobNodes : SchedulerState → SchedulerState)
    (runnable_tasks : List Nat) (s : SchedulerState)
    (mappings : List (Nat × Nat)) :
    (runnable_tasks = [] →
      scheduleJob nb addOrUpdateJobNodes runnable_tasks s mappings =
        some (s, 0)) ∧
    (runnable_tasks ≠ [] →
      ∀ s2 n dropped,
        runSchedulingIteration nb (addOrUpdateJobNodes s) mappings =
          some (s2, n, dropped) →
        scheduleJob nb addOrUpdateJobNodes runnable_tasks s mappings =
          some (s2, n)) := by
  constructor
  · intro h
    subst h
    rfl
  · intro h s2 n dropped hrun
    unfold scheduleJob
    rw [if_pos (List.length_pos.mpr h)]
    simp only [hrun, Option.map_some']

/-- Claim C3, witness: one runnable task, identity `AddOrUpdateJobNodes`
and an empty mapping list: the iteration returns 0 newly scheduled tasks
and `ScheduleJob` returns that count. -/
theorem claim_C3_witness :
    ([(5 : Nat)] ≠ []) ∧
    scheduleJob preemptBinding id [5] emptySchedulerState [] =
      some (emptySchedulerState, 0) :=
  ⟨by decide,
   (claim_C3_thm preemptBinding id [5] emptySchedulerState []).2
     (by decide) emptySchedulerState 0 [] rfl⟩
